import Mathlib

/-!
Shallow embedding of the action-resolution core of the RoguelikeDev tutorial
repository: `actions.py` (the Action hierarchy) and `input_handlers.py`
(the turn engine `EventHandler.handle_action` and the `HistoryViewer`
input mode).  External collaborators (map queries, message-log sink,
enemy-turn sweep, visibility recompute) are modelled from the spec's
interface section, since their code is outside the given sources.
-/

/-- Modelled from the spec: semantic color/category constants from the
external `color` module (`player_atk`, `enemy_atk`, `impossible`, ...). -/
inductive Color where
  | player_atk
  | enemy_atk
  | impossible
  | other
deriving DecidableEq, Repr

/-- A message in the message log: text plus its semantic color.
Modelled from the spec: Message Log sink `append(text, category)`. -/
structure Message where
  text : String
  color : Color
deriving DecidableEq, Repr

/-- Combat stats of an actor (`Fighter` component): current hit points,
attack power, defense. -/
structure Fighter where
  hp : Int
  power : Int
  defense : Int
deriving DecidableEq, Repr

/-- An entity capable of acting or being attacked: a name, an integer
grid Position `(x, y)` and a `Fighter`.  The `id` field models Python
object identity (references into the engine's actor collection). -/
structure Actor where
  id : Nat
  name : String
  x : Int
  y : Int
  fighter : Fighter
deriving DecidableEq, Repr

/-- The engine context visible to Actions: the map query surface
(`in_bounds`, walkability, blocking-entity lookup), the actor
collection, the distinguished player, and the message log.
The map queries are modelled from the spec's Map Query Surface,
since `game_map` is outside the given sources. -/
structure Engine where
  inBounds : Int → Int → Bool
  walkable : Int → Int → Bool
  blockingAt : Int → Int → Bool
  actors : List Actor
  playerId : Nat
  messageLog : List Message

/-- Modelled from the spec: `actor_at(x,y) -> optional Actor` — the actor
with a Fighter located at the given coordinate (`get_actor_at_location`). -/
def Engine.actorAt (e : Engine) (x y : Int) : Option Actor :=
  e.actors.find? (fun a => a.x = x && a.y = y)

/-- Modelled from the spec: Message Log sink `append(text, category)`
(`message_log.add_message`). -/
def Engine.addMessage (e : Engine) (text : String) (c : Color) : Engine :=
  { e with messageLog := e.messageLog ++ [⟨text, c⟩] }

/-- Modelled from the spec: `entity.move(dx, dy)` shifts the entity's
Position by `(dx, dy)`; the entity is a reference into the engine's
actor collection, identified by `id`. -/
def Engine.moveEntity (e : Engine) (i : Nat) (dx dy : Int) : Engine :=
  { e with
    actors := e.actors.map fun a =>
      if a.id = i then { a with x := a.x + dx, y := a.y + dy } else a }

/-- `target.fighter.hp -= damage`: subtract damage from the hp of the
actor identified by `i` in the engine's actor collection. -/
def Engine.damageActor (e : Engine) (i : Nat) (damage : Int) : Engine :=
  { e with
    actors := e.actors.map fun a =>
      if a.id = i then { a with fighter := { a.fighter with hp := a.fighter.hp - damage } } else a }

/-- Python `str.capitalize()`: first character uppercased, the rest
lowercased. -/
def pyCapitalize (s : String) : String :=
  match s.data with
  | [] => ""
  | c :: rest => String.mk (c.toUpper :: rest.map Char.toLower)

/-- Result of `Action.perform()`: normal return with the mutated engine,
the recoverable `Impossible` condition carrying its message, or
`SystemExit` (session termination). -/
inductive PerformResult where
  | ok (e : Engine)
  | impossible (msg : String)
  | systemExit

/-- `WaitAction.perform`: no state change. -/
def WaitAction.perform (e : Engine) : PerformResult :=
  .ok e

/-- `EscapeAction.perform`: raise `SystemExit`. -/
def EscapeAction.perform (_e : Engine) : PerformResult :=
  .systemExit

/-- `ActionWithDirection.dest_xy`: the action's destination coordinate. -/
def destXY (entity : Actor) (dx dy : Int) : Int × Int :=
  (entity.x + dx, entity.y + dy)

/-- `damage = self.entity.fighter.power - target.fighter.defense`. -/
def meleeDamage (entity target : Actor) : Int :=
  entity.fighter.power - target.fighter.defense

/-- `MeleeAction.perform`: attack the actor at the destination, if any.
Computes `damage = power - defense`; for positive damage, logs the
attack message and subtracts hp; otherwise logs a no-damage message. -/
def MeleeAction.perform (e : Engine) (entity : Actor) (dx dy : Int) : PerformResult :=
  match e.actorAt (entity.x + dx) (entity.y + dy) with
  | none => .ok e
  | some target =>
    let damage := meleeDamage entity target
    let attackDesc := pyCapitalize entity.name ++ " attacks " ++ target.name
    let attackColor := if entity.id = e.playerId then Color.player_atk else Color.enemy_atk
    if damage > 0 then
      .ok ((e.addMessage (attackDesc ++ " for " ++ toString damage ++ " hit points.") attackColor).damageActor target.id damage)
    else
      .ok (e.addMessage (attackDesc ++ " but does no damage") attackColor)

/-- `MovementAction.perform`: silently return when the destination is out
of bounds, non-walkable, or blocked by an entity; otherwise move the
acting entity by `(dx, dy)`. -/
def MovementAction.perform (e : Engine) (entity : Actor) (dx dy : Int) : PerformResult :=
  let destX := entity.x + dx
  let destY := entity.y + dy
  if !(e.inBounds destX destY) then .ok e
  else if !(e.walkable destX destY) then .ok e
  else if e.blockingAt destX destY then .ok e
  else .ok (e.moveEntity entity.id dx dy)

/-- `BumpAction.perform`: if an actor is present at the destination,
delegate to `MeleeAction.perform`; otherwise to `MovementAction.perform`. -/
def BumpAction.perform (e : Engine) (entity : Actor) (dx dy : Int) : PerformResult :=
  match e.actorAt (entity.x + dx) (entity.y + dy) with
  | some _ => MeleeAction.perform e entity dx dy
  | none => MovementAction.perform e entity dx dy

/-- The external calls the turn engine makes after a successful action:
the enemy-turn sweep (`engine.handle_enemy_turns`) and the visibility
recompute (`engine.update_fov`), recorded as an ordered trace. -/
inductive EngineEvent where
  | enemySweep
  | fovRecompute
deriving DecidableEq, Repr

/-- Result of `EventHandler.handle_action`: either `SystemExit`
propagates, or the handler returns a Bool (turn elapsed?) with the
resulting engine and the ordered trace of external calls it made. -/
inductive HandleResult where
  | exit
  | done (turnElapsed : Bool) (e : Engine) (events : List EngineEvent)

/-- `EventHandler.handle_action`: `None` → no turn; `perform` raising
`Impossible` → log its message with the impossible color, no turn;
`SystemExit` propagates; otherwise run enemy turns, then update FOV,
and report a turn elapsed. -/
def EventHandler.handle_action (action : Option (Engine → PerformResult)) (e : Engine) :
    HandleResult :=
  match action with
  | none => .done false e []
  | some perform =>
    match perform e with
    | .systemExit => .exit
    | .impossible msg => .done false (e.addMessage msg Color.impossible) []
    | .ok e' => .done true e' [.enemySweep, .fovRecompute]

/-- The `HistoryViewer` input-mode state: the frozen log length snapshot
and the scroll cursor. -/
structure HistoryViewer where
  log_length : Int
  cursor : Int
deriving DecidableEq, Repr

/-- The keys `HistoryViewer.ev_keydown` distinguishes. -/
inductive HistoryKey where
  | up
  | down
  | pageup
  | pagedown
  | home
  | endKey
  | other
deriving DecidableEq, Repr

/-- `CURSOR_Y_KEYS`: the signed step of each vertical cursor key. -/
def CURSOR_Y_KEYS : HistoryKey → Option Int
  | .up => some (-1)
  | .down => some 1
  | .pageup => some (-10)
  | .pagedown => some 10
  | _ => none

/-- Outcome of a `HistoryViewer` key press: stay in history view with an
updated state, or transition back to the main game handler. -/
inductive HistoryOutcome where
  | stay (h : HistoryViewer)
  | toMainGame
deriving DecidableEq, Repr

/-- `HistoryViewer.ev_keydown`: vertical keys move the cursor with the
two wraparound rules and a clamp; Home/End jump to the edges; any other
key returns to the main game. -/
def HistoryViewer.ev_keydown (h : HistoryViewer) (k : HistoryKey) : HistoryOutcome :=
  match CURSOR_Y_KEYS k with
  | some adjust =>
    if adjust < 0 ∧ h.cursor = 0 then
      .stay { h with cursor := h.log_length }
    else if adjust > 0 ∧ h.cursor = h.log_length - 1 then
      .stay { h with cursor := 0 }
    else
      .stay { h with cursor := max 0 (min (h.cursor + adjust) (h.log_length - 1)) }
  | none =>
    if k = .home then .stay { h with cursor := 0 }
    else if k = .endKey then .stay { h with cursor := h.log_length - 1 }
    else .toMainGame

/-- The disjunction of `MovementAction.perform`'s three precondition
checks: destination out of bounds, non-walkable, or blocked by an
entity. -/
def moveBlockedCheck (e : Engine) (entity : Actor) (dx dy : Int) : Bool :=
  !(e.inBounds (entity.x + dx) (entity.y + dy)) ||
  !(e.walkable (entity.x + dx) (entity.y + dy)) ||
  e.blockingAt (entity.x + dx) (entity.y + dy)

/-- The messages a perform result appended to the log of the starting
engine `e` (empty when the action did not return normally). -/
def appendedMessages (e : Engine) : PerformResult → List Message
  | .ok e' => e'.messageLog.drop e.messageLog.length
  | _ => []

/-- Substring test over the underlying character lists. -/
def containsSubstr (s sub : String) : Bool :=
  (List.range (s.data.length + 1)).any (fun i => sub.data.isPrefixOf (s.data.drop i))

/- Concrete fixtures used by witnesses and counterexamples. -/

/-- The player of the concrete scenarios: at (5,5) with power 5. -/
def testPlayer : Actor := ⟨0, "player", 5, 5, ⟨30, 5, 1⟩⟩

/-- The melee target of the concrete scenarios: at (6,5), hp 10, defense 2. -/
def testRat : Actor := ⟨1, "rat", 6, 5, ⟨10, 0, 2⟩⟩

/-- A high-defense target: at (6,5), hp 10, defense 10. -/
def tankRat : Actor := ⟨1, "rat", 6, 5, ⟨10, 0, 10⟩⟩

/-- A 10×10 all-walkable map with the player and `testRat`; the rat's
tile is the only blocked one. -/
def meleeEngine : Engine :=
  { inBounds := fun x y => 0 ≤ x && x < 10 && 0 ≤ y && y < 10
    walkable := fun _ _ => true
    blockingAt := fun x y => x = 6 && y = 5
    actors := [testPlayer, testRat]
    playerId := 0
    messageLog := [] }

/-- Like `meleeEngine` but with the high-defense target. -/
def tankEngine : Engine :=
  { inBounds := fun x y => 0 ≤ x && x < 10 && 0 ≤ y && y < 10
    walkable := fun _ _ => true
    blockingAt := fun x y => x = 6 && y = 5
    actors := [testPlayer, tankRat]
    playerId := 0
    messageLog := [] }

/-- A degenerate map in which every coordinate is out of bounds. -/
def oobEngine : Engine :=
  { inBounds := fun _ _ => false
    walkable := fun _ _ => true
    blockingAt := fun _ _ => false
    actors := [testPlayer]
    playerId := 0
    messageLog := [] }

/-- The engine after the first melee attack of the concrete scenario. -/
def meleeEngineAfter : Engine :=
  (meleeEngine.addMessage "Player attacks rat for 3 hit points." Color.player_atk).damageActor 1 3

/-- `testRat` after taking 3 damage. -/
def ratAfter : Actor := ⟨1, "rat", 6, 5, ⟨7, 0, 2⟩⟩

/-- C1: `handle_action` on an Action whose perform raises Impossible
appends the condition's message to the log, makes no external calls
(no enemy sweep, no FOV recompute) and reports no turn elapsed; on an
Action whose perform returns normally it invokes the enemy sweep and
then the FOV recompute, in that order, and reports a turn elapsed. -/
theorem handle_action_turn_contract (perform : Engine → PerformResult) (e : Engine) :
    (∀ msg, perform e = .impossible msg →
      EventHandler.handle_action (some perform) e =
        .done false (e.addMessage msg Color.impossible) []) ∧
    (∀ e', perform e = .ok e' →
      EventHandler.handle_action (some perform) e =
        .done true e' [.enemySweep, .fovRecompute]) := by
  constructor
  · intro msg h
    simp [EventHandler.handle_action, h]
  · intro e' h
    simp [EventHandler.handle_action, h]

/-- Witness for C1 at concrete inputs. -/
theorem handle_action_turn_contract_witness :
    EventHandler.handle_action (some fun _ => .impossible "That way is blocked.") oobEngine =
      .done false (oobEngine.addMessage "That way is blocked." Color.impossible) [] ∧
    EventHandler.handle_action (some WaitAction.perform) oobEngine =
      .done true oobEngine [.enemySweep, .fovRecompute] :=
  ⟨(handle_action_turn_contract (fun _ => .impossible "That way is blocked.") oobEngine).1
      "That way is blocked." rfl,
    (handle_action_turn_contract WaitAction.perform oobEngine).2 oobEngine rfl⟩

/-- C2: `BumpAction.perform` delegates to `MeleeAction.perform` exactly
when an actor is present at the destination, and to
`MovementAction.perform` exactly when none is. -/
theorem bump_delegation (e : Engine) (entity : Actor) (dx dy : Int) :
    (∀ t, e.actorAt (entity.x + dx) (entity.y + dy) = some t →
      BumpAction.perform e entity dx dy = MeleeAction.perform e entity dx dy) ∧
    (e.actorAt (entity.x + dx) (entity.y + dy) = none →
      BumpAction.perform e entity dx dy = MovementAction.perform e entity dx dy) := by
  constructor
  · intro t h
    simp [BumpAction.perform, h]
  · intro h
    simp [BumpAction.perform, h]

/-- Witness for C2: with the rat at (6,5) a bump east is the melee
attack, and a bump north (empty tile) is the movement. -/
theorem bump_delegation_witness :
    BumpAction.perform meleeEngine testPlayer 1 0 =
      MeleeAction.perform meleeEngine testPlayer 1 0 ∧
    BumpAction.perform meleeEngine testPlayer 0 (-1) =
      MovementAction.perform meleeEngine testPlayer 0 (-1) :=
  ⟨(bump_delegation meleeEngine testPlayer 1 0).1 testRat (by decide),
    (bump_delegation meleeEngine testPlayer 0 (-1)).2 (by decide)⟩

/-- C3 counterexample: with every tile out of bounds, a movement east
returns normally (silent no-op) rather than raising Impossible. -/
theorem movement_oob_counterexample :
    oobEngine.inBounds (testPlayer.x + 1) (testPlayer.y + 0) = false ∧
    MovementAction.perform oobEngine testPlayer 1 0 = .ok oobEngine :=
  ⟨rfl, rfl⟩

/-- C3 amended: a movement whose destination is out of bounds or
non-walkable returns normally without raising Impossible and leaves
the engine — in particular the actor's position — unchanged. -/
theorem movement_blocked_silent_noop (e : Engine) (entity : Actor) (dx dy : Int)
    (h : e.inBounds (entity.x + dx) (entity.y + dy) = false ∨
         e.walkable (entity.x + dx) (entity.y + dy) = false) :
    MovementAction.perform e entity dx dy = .ok e := by
  unfold MovementAction.perform
  rcases h with h | h <;> simp [h]

/-- Witness for amended C3. -/
theorem movement_blocked_silent_noop_witness :
    MovementAction.perform oobEngine testPlayer 1 0 = .ok oobEngine :=
  movement_blocked_silent_noop oobEngine testPlayer 1 0 (Or.inl rfl)

/-- If any movement precondition check fails, `MovementAction.perform`
returns the engine unchanged. -/
theorem movement_perform_of_blocked (e : Engine) (entity : Actor) (dx dy : Int)
    (h : moveBlockedCheck e entity dx dy = true) :
    MovementAction.perform e entity dx dy = .ok e := by
  unfold moveBlockedCheck at h
  unfold MovementAction.perform
  rcases Bool.or_eq_true_iff.mp h with h' | h'
  · rcases Bool.or_eq_true_iff.mp h' with h'' | h'' <;> simp_all
  · simp_all

/-- C4 counterexample: with the destination out of bounds, the movement
is a silent no-op yet the turn DOES advance — `handle_action` runs the
enemy sweep and the FOV recompute and reports a turn elapsed. -/
theorem movement_blocked_turn_counterexample :
    oobEngine.inBounds (testPlayer.x + 1) (testPlayer.y + 0) = false ∧
    EventHandler.handle_action
        (some fun s => MovementAction.perform s testPlayer 1 0) oobEngine =
      .done true oobEngine [.enemySweep, .fovRecompute] :=
  ⟨rfl, rfl⟩

/-- C4 amended: when any movement precondition check fails the action is
a silent no-op (engine unchanged, nothing logged), but the turn still
advances: `handle_action` invokes the enemy sweep and the FOV recompute
and reports a turn elapsed. -/
theorem movement_blocked_noop_but_turn (e : Engine) (entity : Actor) (dx dy : Int)
    (h : moveBlockedCheck e entity dx dy = true) :
    MovementAction.perform e entity dx dy = .ok e ∧
    EventHandler.handle_action
        (some fun s => MovementAction.perform s entity dx dy) e =
      .done true e [.enemySweep, .fovRecompute] := by
  have hperf := movement_perform_of_blocked e entity dx dy h
  exact ⟨hperf, by simp [EventHandler.handle_action, hperf]⟩

/-- Witness for amended C4. -/
theorem movement_blocked_noop_but_turn_witness :
    MovementAction.perform oobEngine testPlayer 1 0 = .ok oobEngine ∧
    EventHandler.handle_action
        (some fun s => MovementAction.perform s testPlayer 1 0) oobEngine =
      .done true oobEngine [.enemySweep, .fovRecompute] :=
  movement_blocked_noop_but_turn oobEngine testPlayer 1 0 rfl

/-- C9: a movement whose precondition check fails returns normally (no
condition raised), so `handle_action` goes on to invoke the enemy sweep
and the FOV recompute and returns True: the failed movement attempt
still consumes a turn. -/
theorem movement_failed_still_consumes_turn (e : Engine) (entity : Actor) (dx dy : Int)
    (h : e.inBounds (entity.x + dx) (entity.y + dy) = false ∨
         e.walkable (entity.x + dx) (entity.y + dy) = false ∨
         e.blockingAt (entity.x + dx) (entity.y + dy) = true) :
    ∃ e', MovementAction.perform e entity dx dy = .ok e' ∧
      EventHandler.handle_action
          (some fun s => MovementAction.perform s entity dx dy) e =
        .done true e' [.enemySweep, .fovRecompute] := by
  have hb : moveBlockedCheck e entity dx dy = true := by
    unfold moveBlockedCheck
    rcases h with h | h | h <;> simp [h]
  have hperf := movement_perform_of_blocked e entity dx dy hb
  exact ⟨e, hperf, by simp [EventHandler.handle_action, hperf]⟩

/-- Witness for C9 at a blocked destination (the rat's tile). -/
theorem movement_failed_still_consumes_turn_witness :
    ∃ e', MovementAction.perform meleeEngine testPlayer 1 0 = .ok e' ∧
      EventHandler.handle_action
          (some fun s => MovementAction.perform s testPlayer 1 0) meleeEngine =
        .done true e' [.enemySweep, .fovRecompute] :=
  movement_failed_still_consumes_turn meleeEngine testPlayer 1 0
    (Or.inr (Or.inr rfl))

/-- A string that appears as a substring of `y` appears as a substring
of `x ++ y`. -/
theorem containsSubstr_append_right (x y sub : String)
    (h : containsSubstr y sub = true) : containsSubstr (x ++ y) sub = true := by
  unfold containsSubstr at h ⊢
  rw [List.any_eq_true] at h ⊢
  obtain ⟨i, hi, hpre⟩ := h
  refine ⟨x.data.length + i, ?_, ?_⟩
  · rw [List.mem_range] at hi ⊢
    rw [String.data_append, List.length_append]
    omega
  · rw [String.data_append, List.drop_append]
    exact hpre

/-- C5: with power 5 against defense 2 and hp 10, the melee attack
brings hp to 7 and logs a message containing \"3 hit points\"; attacking
again brings hp to 4. -/
theorem melee_concrete_scenario :
    ∃ e₁ e₂,
      MeleeAction.perform meleeEngine testPlayer 1 0 = .ok e₁ ∧
      (e₁.actorAt 6 5).map (fun a => a.fighter.hp) = some 7 ∧
      e₁.messageLog.map (fun m => containsSubstr m.text "3 hit points") = [true] ∧
      MeleeAction.perform e₁ testPlayer 1 0 = .ok e₂ ∧
      (e₂.actorAt 6 5).map (fun a => a.fighter.hp) = some 4 := by
  refine ⟨_, _, rfl, ?_, ?_, rfl, ?_⟩ <;> decide

/-- C6: a melee attack whose computed damage is non-positive leaves
every actor (in particular the target's hp) unchanged and appends one
message whose text contains \"does no damage\". -/
theorem melee_no_damage (e : Engine) (entity target : Actor) (dx dy : Int)
    (hT : e.actorAt (entity.x + dx) (entity.y + dy) = some target)
    (hD : meleeDamage entity target ≤ 0) :
    ∃ e', MeleeAction.perform e entity dx dy = .ok e' ∧
      e'.actors = e.actors ∧
      ∃ m, e'.messageLog = e.messageLog ++ [m] ∧
        containsSubstr m.text "does no damage" = true := by
  unfold MeleeAction.perform
  rw [hT]
  have hnot : ¬ meleeDamage entity target > 0 := by omega
  simp only [hnot, if_false]
  exact ⟨_, rfl, rfl, ⟨_, rfl, containsSubstr_append_right _ _ _ (by decide)⟩⟩

/-- Witness for C6: the spec's concrete scenario with defense 10 against
power 5. -/
theorem melee_no_damage_witness :
    ∃ e', MeleeAction.perform tankEngine testPlayer 1 0 = .ok e' ∧
      e'.actors = tankEngine.actors ∧
      ∃ m, e'.messageLog = tankEngine.messageLog ++ [m] ∧
        containsSubstr m.text "does no damage" = true :=
  melee_no_damage tankEngine testPlayer tankRat 1 0 (by decide) (by decide)

/-- C7: on a vertical step key with signed step `adjust`, the history
cursor wraps to `log_length` when stepping negative at 0, wraps to 0
when stepping positive at `log_length - 1`, and otherwise moves by
`adjust` clamped to `[0, log_length - 1]`; the frozen log length is
untouched. -/
theorem history_cursor_step (h : HistoryViewer) (k : HistoryKey) (adjust : Int)
    (hk : CURSOR_Y_KEYS k = some adjust) :
    ∃ h', h.ev_keydown k = .stay h' ∧ h'.log_length = h.log_length ∧
      (adjust < 0 ∧ h.cursor = 0 → h'.cursor = h.log_length) ∧
      (¬(adjust < 0 ∧ h.cursor = 0) → adjust > 0 ∧ h.cursor = h.log_length - 1 →
        h'.cursor = 0) ∧
      (¬(adjust < 0 ∧ h.cursor = 0) → ¬(adjust > 0 ∧ h.cursor = h.log_length - 1) →
        h'.cursor = max 0 (min (h.cursor + adjust) (h.log_length - 1))) := by
  simp only [HistoryViewer.ev_keydown, hk]
  split_ifs with h1 h2
  · exact ⟨_, rfl, rfl, fun _ => rfl, fun hn _ => absurd h1 hn, fun hn _ => absurd h1 hn⟩
  · exact ⟨_, rfl, rfl, fun hc => absurd hc h1, fun _ _ => rfl, fun _ hn => absurd h2 hn⟩
  · exact ⟨_, rfl, rfl, fun hc => absurd hc h1, fun _ hc => absurd hc h2, fun _ _ => rfl⟩

/-- Witness for C7: a negative step at the top of a 5-message log wraps
to `log_length = 5`. -/
theorem history_cursor_step_witness :
    ∃ h', HistoryViewer.ev_keydown ⟨5, 0⟩ HistoryKey.up = .stay h' ∧
      h'.log_length = 5 ∧
      ((-1 : Int) < 0 ∧ (0 : Int) = 0 → h'.cursor = 5) ∧
      (¬((-1 : Int) < 0 ∧ (0 : Int) = 0) → (-1 : Int) > 0 ∧ (0 : Int) = 5 - 1 →
        h'.cursor = 0) ∧
      (¬((-1 : Int) < 0 ∧ (0 : Int) = 0) → ¬((-1 : Int) > 0 ∧ (0 : Int) = 5 - 1) →
        h'.cursor = max 0 (min (0 + -1) (5 - 1))) :=
  history_cursor_step ⟨5, 0⟩ HistoryKey.up (-1) rfl

/-- Damaging an actor does not touch the message log. -/
theorem messageLog_damageActor (e : Engine) (i : Nat) (d : Int) :
    (e.damageActor i d).messageLog = e.messageLog := rfl

/-- The message appended by `addMessage` followed by `damageActor`. -/
theorem appendedMessages_addMessage_damage (e : Engine) (m : String) (c : Color)
    (i : Nat) (d : Int) :
    appendedMessages e (.ok ((e.addMessage m c).damageActor i d)) = [Message.mk m c] := by
  show (e.messageLog ++ [Message.mk m c]).drop e.messageLog.length = [Message.mk m c]
  exact List.drop_left _ _

/-- The message appended by a bare `addMessage`. -/
theorem appendedMessages_addMessage (e : Engine) (m : String) (c : Color) :
    appendedMessages e (.ok (e.addMessage m c)) = [Message.mk m c] := by
  show (e.messageLog ++ [Message.mk m c]).drop e.messageLog.length = [Message.mk m c]
  exact List.drop_left _ _

/-- C8: the melee damage and the appended message depend only on the
attacker's power and name, the target's defense and name, and whether
the attacker is the player — so repeated invocations with those fixed
compute the same damage and byte-for-byte the same message. -/
theorem melee_deterministic (e₁ e₂ : Engine) (en₁ en₂ : Actor)
    (dx₁ dy₁ dx₂ dy₂ : Int) (t₁ t₂ : Actor)
    (h₁ : e₁.actorAt (en₁.x + dx₁) (en₁.y + dy₁) = some t₁)
    (h₂ : e₂.actorAt (en₂.x + dx₂) (en₂.y + dy₂) = some t₂)
    (hn : en₁.name = en₂.name) (hp : en₁.fighter.power = en₂.fighter.power)
    (htn : t₁.name = t₂.name) (htd : t₁.fighter.defense = t₂.fighter.defense)
    (hpl : en₁.id = e₁.playerId ↔ en₂.id = e₂.playerId) :
    meleeDamage en₁ t₁ = meleeDamage en₂ t₂ ∧
    appendedMessages e₁ (MeleeAction.perform e₁ en₁ dx₁ dy₁) =
      appendedMessages e₂ (MeleeAction.perform e₂ en₂ dx₂ dy₂) := by
  have hdmg : meleeDamage en₁ t₁ = meleeDamage en₂ t₂ := by
    unfold meleeDamage
    rw [hp, htd]
  have hdesc : pyCapitalize en₁.name ++ " attacks " ++ t₁.name =
      pyCapitalize en₂.name ++ " attacks " ++ t₂.name := by
    rw [hn, htn]
  have hcol : (if en₁.id = e₁.playerId then Color.player_atk else Color.enemy_atk) =
      (if en₂.id = e₂.playerId then Color.player_atk else Color.enemy_atk) := by
    by_cases hc : en₁.id = e₁.playerId
    · rw [if_pos hc, if_pos (hpl.mp hc)]
    · rw [if_neg hc, if_neg fun hc2 => hc (hpl.mpr hc2)]
  refine ⟨hdmg, ?_⟩
  simp only [MeleeAction.perform, h₁, h₂]
  rw [hdesc, hcol, hdmg]
  by_cases hd : meleeDamage en₂ t₂ > 0
  · simp only [if_pos hd, appendedMessages_addMessage_damage]
  · simp only [if_neg hd, appendedMessages_addMessage]

/-- Witness for C8: the first and the repeated attack of the concrete
scenario compute the same damage and the same message. -/
theorem melee_deterministic_witness :
    meleeDamage testPlayer testRat = meleeDamage testPlayer ratAfter ∧
    appendedMessages meleeEngine (MeleeAction.perform meleeEngine testPlayer 1 0) =
      appendedMessages meleeEngineAfter
        (MeleeAction.perform meleeEngineAfter testPlayer 1 0) :=
  melee_deterministic meleeEngine meleeEngineAfter testPlayer testPlayer 1 0 1 0
    testRat ratAfter (by decide) (by decide) rfl rfl rfl rfl (by decide)

/-- Moving an actor preserves every fighter in the collection. -/
theorem map_fighter_moveActors (l : List Actor) (i : Nat) (dx dy : Int) :
    (l.map fun a =>
        if a.id = i then { a with x := a.x + dx, y := a.y + dy } else a).map
      Actor.fighter = l.map Actor.fighter := by
  induction l with
  | nil => rfl
  | cons a l ih =>
    by_cases hA : a.id = i <;> simp [hA, ih]

/-- C10: `MovementAction.perform` never changes any fighter and never
logs: it returns normally, the message log and all fighters are
preserved; when a precondition check fails nothing changes at all, and
otherwise the only change is the acting entity's position shifted by
`(dx, dy)`. -/
theorem movement_frame (e : Engine) (entity : Actor) (dx dy : Int) :
    ∃ e', MovementAction.perform e entity dx dy = .ok e' ∧
      e'.messageLog = e.messageLog ∧
      e'.actors.map Actor.fighter = e.actors.map Actor.fighter ∧
      (moveBlockedCheck e entity dx dy = true → e' = e) ∧
      (moveBlockedCheck e entity dx dy = false →
        e'.actors = e.actors.map fun a =>
          if a.id = entity.id then { a with x := a.x + dx, y := a.y + dy } else a) := by
  by_cases hb : moveBlockedCheck e entity dx dy = true
  · refine ⟨e, movement_perform_of_blocked e entity dx dy hb, rfl, rfl, fun _ => rfl,
      fun hf => ?_⟩
    rw [hb] at hf
    cases hf
  · have hb' : moveBlockedCheck e entity dx dy = false := by
      cases hbc : moveBlockedCheck e entity dx dy
      · rfl
      · exact absurd hbc hb
    have hchecks := hb'
    simp only [moveBlockedCheck, Bool.or_eq_false_iff, Bool.not_eq_false'] at hchecks
    obtain ⟨⟨hIn, hWk⟩, hBlk⟩ := hchecks
    refine ⟨e.moveEntity entity.id dx dy, ?_, rfl, map_fighter_moveActors _ _ _ _,
      fun ht => absurd ht (by rw [hb']; exact Bool.false_ne_true), fun _ => rfl⟩
    unfold MovementAction.perform
    simp [hIn, hWk, hBlk]

/-- Witness for C10: a successful step north from (5,5). -/
theorem movement_frame_witness :
    ∃ e', MovementAction.perform meleeEngine testPlayer 0 (-1) = .ok e' ∧
      e'.messageLog = meleeEngine.messageLog ∧
      e'.actors.map Actor.fighter = meleeEngine.actors.map Actor.fighter ∧
      (moveBlockedCheck meleeEngine testPlayer 0 (-1) = true → e' = meleeEngine) ∧
      (moveBlockedCheck meleeEngine testPlayer 0 (-1) = false →
        e'.actors = meleeEngine.actors.map fun a =>
          if a.id = testPlayer.id then { a with x := a.x + 0, y := a.y + (-1) } else a) :=
  movement_frame meleeEngine testPlayer 0 (-1)
